import Mathlib

/-!
Verification development for the inventory-management-system repository.

The repository is a multi-role inventory API: a Next.js frontend (present in
the sources) calling a Python Flask backend (`/backend/app.py`, documented in
the repository README but not present among the sources).  The development has
two parts:

* a shallow embedding of the frontend's `makeApiCall` helper
  (`frontend/utils/apiClient.ts`, final revision in the file), translated
  directly from the TypeScript source; and
* a model of the backend operations (items CRUD, role directory, audit
  recorder, bulk CSV quantity ingestion, alert/trend/report derivations and
  the request pipeline).  The backend implementation file is not among the
  sources, so these definitions are modelled from the specification and from
  the route/permission tables and schema in the repository README.
-/

namespace Inventory

/-! ## Data model

Modelled from the spec (§3) and the README database schema: roles, role
assignments, items, and append-only audit-log entries.  Timestamps are a
logical clock (`Nat`); money amounts are integers (the claims under study do
not depend on fractional prices). -/

inductive Role where
  | admin
  | manager
  | viewer
  deriving DecidableEq, Repr

structure RoleAssignment where
  principal : String
  role : Role
  assigned_at : Nat
  updated_at : Nat
  deriving DecidableEq, Repr

structure Item where
  id : String
  name : String
  quantity : Int
  price : Int
  category : Option String
  created_at : Nat
  updated_at : Nat
  deriving DecidableEq, Repr

/-- The pre-mutation snapshot stored in an audit entry's `old_values`
(JSONB in the README schema): either the prior item row or the prior role
assignment. -/
inductive Snapshot where
  | itemSnap (it : Item)
  | roleSnap (ra : RoleAssignment)
  deriving DecidableEq, Repr

structure AuditLogEntry where
  id : Nat
  actor : String
  action : String
  table_name : String
  record_id : String
  old_values : Option Snapshot
  created_at : Nat
  deriving DecidableEq, Repr

/-- The persistent store: items, role assignments, the audit log (kept in
chronological order; the HTTP listing reverses it to newest-first) and a
logical clock used for ids and timestamps. -/
structure StoreState where
  items : List Item
  roles : List RoleAssignment
  auditLog : List AuditLogEntry
  now : Nat
  deriving DecidableEq, Repr

/-- Error taxonomy, modelled from the spec (§7). -/
inductive ApiErr where
  | unauthenticated
  | forbidden
  | notFound
  | validationError (msg : String)
  | auditWriteFailure
  deriving DecidableEq, Repr

/-- HTTP status of each error class, modelled from the spec (§7). -/
def httpStatus : ApiErr → Nat
  | .unauthenticated => 401
  | .forbidden => 403
  | .notFound => 404
  | .validationError _ => 400
  | .auditWriteFailure => 500

def findItem (st : StoreState) (id : String) : Option Item :=
  st.items.find? (fun x => x.id = id)

def findRole (st : StoreState) (p : String) : Option RoleAssignment :=
  st.roles.find? (fun ra => ra.principal = p)

def getRole (st : StoreState) (p : String) : Option Role :=
  (findRole st p).map (·.role)

def itemIds (st : StoreState) : List String :=
  st.items.map (·.id)

def replaceItem (l : List Item) (id : String) (newIt : Item) : List Item :=
  l.map (fun x => if x.id = id then newIt else x)

def removeItem (l : List Item) (id : String) : List Item :=
  l.filter (fun x => ¬ x.id = id)

/-! ## Audit recorder

Modelled from the spec (§4.4): the entry is appended only after the data
mutation is in place; when the audit write fails the call must surface
`AuditWriteFailure` even though the data change is not rolled back.  The
`auditOk` flag models whether the durable audit write succeeds. -/

def recordAudit (auditOk : Bool) (st : StoreState) (actor action table recId : String)
    (ov : Option Snapshot) : StoreState × Except ApiErr Unit :=
  if auditOk then
    ({ st with
        auditLog := st.auditLog ++
          [{ id := st.auditLog.length, actor := actor, action := action,
             table_name := table, record_id := recId, old_values := ov,
             created_at := st.now }],
        now := st.now + 1 },
     Except.ok ())
  else (st, Except.error ApiErr.auditWriteFailure)

/-! ## Item repository

Modelled from the spec (§4.5): CRUD plus quantity-only update; `NotFound`
when the id does not exist, `ValidationError` for empty name / negative
quantity / negative price; every successful mutation is followed by exactly
one audit entry whose `old_values` is the full pre-mutation row (null for
create). -/

structure ItemPayload where
  name : String
  quantity : Int
  price : Int
  category : Option String
  deriving DecidableEq, Repr

def validatePayload (p : ItemPayload) : Option String :=
  if p.name = "" then some "name must not be empty"
  else if p.quantity < 0 then some "quantity must not be negative"
  else if p.price < 0 then some "price must not be negative"
  else none

def createItemH (auditOk : Bool) (st : StoreState) (actor : String) (p : ItemPayload) :
    StoreState × Except ApiErr Item :=
  match validatePayload p with
  | some m => (st, Except.error (ApiErr.validationError m))
  | none =>
    let newIt : Item :=
      { id := "item-" ++ toString st.now, name := p.name, quantity := p.quantity,
        price := p.price, category := p.category, created_at := st.now,
        updated_at := st.now }
    let st1 := { st with items := st.items ++ [newIt] }
    let step := recordAudit auditOk st1 actor "ITEM_CREATED" "items" newIt.id none
    (step.1, step.2.map (fun _ => newIt))

def updateItemH (auditOk : Bool) (st : StoreState) (actor id : String) (p : ItemPayload) :
    StoreState × Except ApiErr Item :=
  match findItem st id with
  | none => (st, Except.error ApiErr.notFound)
  | some it =>
    match validatePayload p with
    | some m => (st, Except.error (ApiErr.validationError m))
    | none =>
      let newIt : Item :=
        { it with name := p.name, quantity := p.quantity, price := p.price,
                  category := p.category, updated_at := st.now }
      let st1 := { st with items := replaceItem st.items id newIt }
      let step := recordAudit auditOk st1 actor "ITEM_UPDATED" "items" id
        (some (Snapshot.itemSnap it))
      (step.1, step.2.map (fun _ => newIt))

def updateQuantityH (auditOk : Bool) (st : StoreState) (actor id : String) (q : Int) :
    StoreState × Except ApiErr Item :=
  match findItem st id with
  | none => (st, Except.error ApiErr.notFound)
  | some it =>
    if q < 0 then (st, Except.error (ApiErr.validationError "quantity must not be negative"))
    else
      let newIt : Item := { it with quantity := q, updated_at := st.now }
      let st1 := { st with items := replaceItem st.items id newIt }
      let step := recordAudit auditOk st1 actor "QUANTITY_UPDATED" "items" id
        (some (Snapshot.itemSnap it))
      (step.1, step.2.map (fun _ => newIt))

def deleteItemH (auditOk : Bool) (st : StoreState) (actor id : String) :
    StoreState × Except ApiErr Item :=
  match findItem st id with
  | none => (st, Except.error ApiErr.notFound)
  | some it =>
    let st1 := { st with items := removeItem st.items id }
    let step := recordAudit auditOk st1 actor "ITEM_DELETED" "items" id
      (some (Snapshot.itemSnap it))
    (step.1, step.2.map (fun _ => it))

/-! ## Role directory

Modelled from the spec (§4.2): `set_role` overwrites any existing assignment
in place and records one audit entry carrying the previous assignment (or
none) as `old_values`. -/

def setRoleH (auditOk : Bool) (st : StoreState) (actor uid : String) (r : Role) :
    StoreState × Except ApiErr RoleAssignment :=
  let old := findRole st uid
  let newRa : RoleAssignment :=
    match old with
    | some ra => { ra with role := r, updated_at := st.now }
    | none => { principal := uid, role := r, assigned_at := st.now, updated_at := st.now }
  let newRoles :=
    match old with
    | some _ => st.roles.map (fun ra => if ra.principal = uid then newRa else ra)
    | none => st.roles ++ [newRa]
  let st1 := { st with roles := newRoles }
  let step := recordAudit auditOk st1 actor "ROLE_ASSIGNED" "user_roles" uid
    (old.map Snapshot.roleSnap)
  (step.1, step.2.map (fun _ => newRa))

/-! ## Bulk quantity ingestor

Modelled from the spec (§4.6): the upload is a CSV with header
`item_id,new_quantity`; rows are validated independently (malformed quantity,
non-existent item id and negative quantity are row-level failures); valid
rows are applied in file order through the quantity update of the item
repository, each producing its own audit entry; only file-level problems
(unreadable stream, missing header, zero rows) raise. -/

def digitVal (c : Char) : Option Nat :=
  if c.isDigit then some (c.toNat - 48) else none

def parseNatAux : List Char → Nat → Option Nat
  | [], acc => some acc
  | c :: cs, acc =>
    match digitVal c with
    | some d => parseNatAux cs (acc * 10 + d)
    | none => none

def parseNatDigits : List Char → Option Nat
  | [] => none
  | ds => parseNatAux ds 0

/-- Parse a decimal integer with optional leading minus sign. -/
def parseInt (s : String) : Option Int :=
  match s.data with
  | [] => none
  | '-' :: rest => (parseNatDigits rest).map (fun n => -(n : Int))
  | ds => (parseNatDigits ds).map Int.ofNat

/-- A readable CSV upload after splitting into lines and fields: the header
line and one `(item_id, new_quantity)` field pair per data row. -/
structure CsvFile where
  header : String
  rows : List (String × String)
  deriving DecidableEq, Repr

structure BulkRejected where
  row_index : Nat
  item_id : String
  reason : String
  deriving DecidableEq, Repr

structure BulkResult where
  processed : Nat
  applied : Nat
  rejected : List BulkRejected
  deriving DecidableEq, Repr

def expectedCsvHeader : String := "item_id,new_quantity"

/-- Row-level validity of a CSV row with respect to a set of existing item
ids: the quantity must parse, be non-negative, and the item id must exist. -/
def rowInvalid (ids : List String) (row : String × String) : Bool :=
  match parseInt row.2 with
  | none => true
  | some q => decide (q < 0) || decide (row.1 ∉ ids)

/-- Process the data rows one at a time, in file order; each row is validated
independently and a valid row is applied together with its own audit entry. -/
def processRows (auditOk : Bool) (actor : String) :
    StoreState → Nat → List (String × String) → StoreState × Nat × List BulkRejected
  | st, _, [] => (st, 0, [])
  | st, idx, row :: rest =>
    match parseInt row.2 with
    | none =>
      let r := processRows auditOk actor st (idx + 1) rest
      (r.1, r.2.1, { row_index := idx, item_id := row.1,
                     reason := "malformed quantity" } :: r.2.2)
    | some q =>
      if q < 0 then
        let r := processRows auditOk actor st (idx + 1) rest
        (r.1, r.2.1, { row_index := idx, item_id := row.1,
                       reason := "negative quantity" } :: r.2.2)
      else
        match findItem st row.1 with
        | none =>
          let r := processRows auditOk actor st (idx + 1) rest
          (r.1, r.2.1, { row_index := idx, item_id := row.1,
                         reason := "item not found" } :: r.2.2)
        | some it =>
          let newIt : Item := { it with quantity := q, updated_at := st.now }
          let st1 := { st with items := replaceItem st.items row.1 newIt }
          let step := recordAudit auditOk st1 actor "QUANTITY_UPDATED" "items" row.1
            (some (Snapshot.itemSnap it))
          match step.2 with
          | Except.ok _ =>
            let r := processRows auditOk actor step.1 (idx + 1) rest
            (r.1, r.2.1 + 1, r.2.2)
          | Except.error _ =>
            let r := processRows auditOk actor step.1 (idx + 1) rest
            (r.1, r.2.1, { row_index := idx, item_id := row.1,
                           reason := "audit write failed" } :: r.2.2)

/-- Bulk ingestion call: `none` stands for an unreadable stream. -/
def bulkUpdateH (auditOk : Bool) (st : StoreState) (actor : String)
    (file : Option CsvFile) : StoreState × Except ApiErr BulkResult :=
  match file with
  | none => (st, Except.error (ApiErr.validationError "unreadable stream"))
  | some f =>
    if f.header = expectedCsvHeader then
      match f.rows with
      | [] => (st, Except.error (ApiErr.validationError "zero rows"))
      | _ :: _ =>
        let r := processRows auditOk actor st 0 f.rows
        (r.1, Except.ok { processed := f.rows.length, applied := r.2.1,
                          rejected := r.2.2 })
    else (st, Except.error (ApiErr.validationError "missing header"))

/-! ## Alert engine

Modelled from the spec (§4.7): items with `quantity < threshold` for a fixed
threshold of 10, ordered by quantity ascending. -/

def lowStockThreshold : Int := 10

def itemLe (a b : Item) : Prop := a.quantity ≤ b.quantity

instance : DecidableRel itemLe := fun a b =>
  inferInstanceAs (Decidable (a.quantity ≤ b.quantity))

instance : IsTotal Item itemLe := ⟨fun a b => Int.le_total a.quantity b.quantity⟩

instance : IsTrans Item itemLe := ⟨fun _ _ _ h1 h2 => le_trans h1 h2⟩

def lowStockH (st : StoreState) : List Item :=
  List.insertionSort itemLe (st.items.filter (fun i => i.quantity < lowStockThreshold))

/-! ## Trend aggregator

Modelled from the spec (§4.8): scan the audit entries of the item in
chronological order, extract the quantity carried by each entry's old-value
snapshot, and close the series with the item's current quantity; fails with
`NotFound` when the item does not exist. -/

def itemHistEntries (st : StoreState) (id : String) : List AuditLogEntry :=
  st.auditLog.filter (fun e => e.table_name = "items" && e.record_id = id)

def snapQuantity (e : AuditLogEntry) : Option (Nat × Int) :=
  match e.old_values with
  | some (Snapshot.itemSnap old) => some (e.created_at, old.quantity)
  | _ => none

/-- The historical points of the series: one per audit entry that carries an
old item snapshot for this record. -/
def histPoints (st : StoreState) (id : String) : List (Nat × Int) :=
  (itemHistEntries st id).filterMap snapQuantity

def trendPoints (st : StoreState) (id : String) (it : Item) : List (Nat × Int) :=
  histPoints st id ++ [(st.now, it.quantity)]

def trendH (st : StoreState) (id : String) : Except ApiErr (List (Nat × Int)) :=
  match findItem st id with
  | none => Except.error ApiErr.notFound
  | some it => Except.ok (trendPoints st id it)

/-! ## Report generator

Modelled from the spec (§4.9): totals over all current items plus the full
item listing, computed on demand from live state. -/

structure MonthlyReportSnapshot where
  total_inventory_value : Int
  total_units : Int
  distinct_item_count : Nat
  items : List Item
  deriving DecidableEq, Repr

def monthlyReportH (st : StoreState) : MonthlyReportSnapshot :=
  { total_inventory_value := (st.items.map (fun i => i.quantity * i.price)).sum,
    total_units := (st.items.map (·.quantity)).sum,
    distinct_item_count := st.items.length,
    items := st.items }

/-! ## Request pipeline

Modelled from the spec (§2, §4.1, §4.3, §6): identity verification, role
lookup, access-policy check against the per-route role table (the table is
taken from the README's route/permission table, which agrees with spec §6),
then the handler. -/

inductive Credential where
  | missing
  | malformed
  | expired
  | valid (p : String)
  deriving DecidableEq, Repr

inductive Operation where
  | createItem (p : ItemPayload)
  | listItems
  | getItem (id : String)
  | updateItem (id : String) (p : ItemPayload)
  | updateQuantity (id : String) (q : Int)
  | deleteItem (id : String)
  | bulkUpdate (file : Option CsvFile)
  | getTrends (id : String)
  | listUsers
  | getRoleOf (uid : String)
  | setUserRole (uid : String) (r : Role)
  | lowStockOp
  | monthlyReportOp
  | auditLogsOp
  deriving DecidableEq, Repr

/-- The per-route role table, from the README's "Backend API Routes" table
(spec §6 lists the same requirements). -/
def allowedRoles : Operation → List Role
  | .createItem _ => [.admin]
  | .listItems => [.admin, .manager, .viewer]
  | .getItem _ => [.admin, .manager, .viewer]
  | .updateItem _ _ => [.admin, .manager]
  | .updateQuantity _ _ => [.admin, .manager]
  | .deleteItem _ => [.admin]
  | .bulkUpdate _ => [.manager]
  | .getTrends _ => [.admin, .manager, .viewer]
  | .listUsers => [.admin]
  | .getRoleOf _ => [.admin, .manager, .viewer]
  | .setUserRole _ _ => [.admin]
  | .lowStockOp => [.admin, .manager]
  | .monthlyReportOp => [.admin]
  | .auditLogsOp => [.admin]

/-- The five single-record mutating operations (item create, full update,
quantity update, delete, role assignment). -/
def isSingleMutation : Operation → Bool
  | .createItem _ => true
  | .updateItem _ _ => true
  | .updateQuantity _ _ => true
  | .deleteItem _ => true
  | .setUserRole _ _ => true
  | _ => false

/-- The pre-mutation state of the record affected by a mutating operation:
none for a create, the full prior row otherwise. -/
def preSnapshot (st : StoreState) : Operation → Option Snapshot
  | .createItem _ => none
  | .updateItem id _ => (findItem st id).map Snapshot.itemSnap
  | .updateQuantity id _ => (findItem st id).map Snapshot.itemSnap
  | .deleteItem id => (findItem st id).map Snapshot.itemSnap
  | .setUserRole uid _ => (findRole st uid).map Snapshot.roleSnap
  | _ => none

inductive Response where
  | item (it : Item)
  | items (l : List Item)
  | done
  | bulk (r : BulkResult)
  | trends (pts : List (Nat × Int))
  | roleOf (r : Role)
  | roleAssigned (ra : RoleAssignment)
  | report (r : MonthlyReportSnapshot)
  | logs (l : List AuditLogEntry)
  | users (l : List RoleAssignment)
  deriving DecidableEq, Repr

/-- Execute a (policy-cleared) operation against the store. -/
def runOp (auditOk : Bool) (st : StoreState) (actor : String) :
    Operation → StoreState × Except ApiErr Response
  | .createItem p =>
    let r := createItemH auditOk st actor p
    (r.1, r.2.map Response.item)
  | .listItems => (st, Except.ok (Response.items st.items))
  | .getItem id =>
    (st, match findItem st id with
         | some it => Except.ok (Response.item it)
         | none => Except.error ApiErr.notFound)
  | .updateItem id p =>
    let r := updateItemH auditOk st actor id p
    (r.1, r.2.map Response.item)
  | .updateQuantity id q =>
    let r := updateQuantityH auditOk st actor id q
    (r.1, r.2.map Response.item)
  | .deleteItem id =>
    let r := deleteItemH auditOk st actor id
    (r.1, r.2.map (fun _ => Response.done))
  | .bulkUpdate file =>
    let r := bulkUpdateH auditOk st actor file
    (r.1, r.2.map Response.bulk)
  | .getTrends id => (st, (trendH st id).map Response.trends)
  | .listUsers => (st, Except.ok (Response.users st.roles))
  | .getRoleOf uid =>
    (st, match getRole st uid with
         | some r => Except.ok (Response.roleOf r)
         | none => Except.error ApiErr.notFound)
  | .setUserRole uid r =>
    let res := setRoleH auditOk st actor uid r
    (res.1, res.2.map Response.roleAssigned)
  | .lowStockOp => (st, Except.ok (Response.items (lowStockH st)))
  | .monthlyReportOp => (st, Except.ok (Response.report (monthlyReportH st)))
  | .auditLogsOp => (st, Except.ok (Response.logs st.auditLog.reverse))

/-- The full request pipeline: identity verification (`Unauthenticated` for a
missing, malformed or expired credential), role lookup (an unassigned
principal fails every policy check with `Forbidden`), access-policy check,
then the handler. -/
def pipeline (auditOk : Bool) (st : StoreState) (cred : Credential) (op : Operation) :
    StoreState × Except ApiErr Response :=
  match cred with
  | .valid p =>
    match getRole st p with
    | none => (st, Except.error ApiErr.forbidden)
    | some r =>
      if r ∈ allowedRoles op then runOp auditOk st p op
      else (st, Except.error ApiErr.forbidden)
  | _ => (st, Except.error ApiErr.unauthenticated)

/-! ## Well-formed stores

The audit log is kept in chronological order with entry timestamps strictly
increasing and below the store clock; every operation appends entries stamped
with the current clock and then advances it, so well-formedness is preserved. -/

def WF (st : StoreState) : Prop :=
  st.auditLog.Pairwise (fun a b => a.created_at < b.created_at) ∧
  ∀ e ∈ st.auditLog, e.created_at < st.now

instance (st : StoreState) : Decidable (WF st) := by
  unfold WF; infer_instance

end Inventory

namespace ApiClient

/-!
Shallow embedding of `makeApiCall` from `frontend/utils/apiClient.ts` (the
final revision in that file, the one with the server/client base-URL split).
The function is split at its only network call: `buildRequest` covers
everything before `fetch` (base-URL check, token acquisition, header and body
assembly) and `handleResponse` covers everything after it (status check and
body parsing).  `JSON.parse` is abstracted as a parameter returning the two
fields the code reads (`error`, `message`); a `none` result stands for a
parse exception.
-/

structure ApiCallOptions where
  method : String
  body : Option String
  isFormData : Bool
  authToken : Option String
  deriving DecidableEq, Repr

/-- Outcome of `supabase.auth.getSession()` on the client side. -/
inductive SessionFetch where
  | fetchError (msg : String)
  | noSession
  | session (accessToken : String)
  deriving DecidableEq, Repr

/-- The environment `makeApiCall` reads: whether it runs on the server,
the two base-URL environment variables, and what the client-side session
fetch would return. -/
structure ClientEnv where
  isServer : Bool
  publicApiUrl : Option String
  internalApiUrl : Option String
  sessionFetch : SessionFetch
  deriving DecidableEq, Repr

inductive ClientError where
  | configMissing (varName : String)
  | sessionError (msg : String)
  | tokenUnobtainable
  | apiUnauthorized (msg : String)
  | apiForbidden (msg : String)
  | apiFailed (status : Nat) (msg : String)
  deriving DecidableEq, Repr

structure HttpRequest where
  url : String
  method : String
  headers : List (String × String)
  body : Option String
  deriving DecidableEq, Repr

/-- Everything `makeApiCall` does before `fetch`: an `Except.error` means the
function throws without performing any network call. -/
def buildRequest (opts : ApiCallOptions) (env : ClientEnv) (endpoint : String) :
    Except ClientError HttpRequest :=
  let baseUrl := if env.isServer then env.internalApiUrl else env.publicApiUrl
  match baseUrl with
  | none =>
    Except.error (ClientError.configMissing
      (if env.isServer then "INTERNAL_API_BASE_URL" else "NEXT_PUBLIC_API_BASE_URL"))
  | some url =>
    let tokenRes : Except ClientError (Option String) :=
      match opts.authToken with
      | some t => Except.ok (some t)
      | none =>
        if env.isServer then Except.ok none
        else
          match env.sessionFetch with
          | .fetchError m => Except.error (ClientError.sessionError m)
          | .noSession => Except.ok none
          | .session t => Except.ok (some t)
    match tokenRes with
    | Except.error e => Except.error e
    | Except.ok none => Except.error ClientError.tokenUnobtainable
    | Except.ok (some t) =>
      let authHeader := ("Authorization", "Bearer " ++ t)
      let headers :=
        if opts.isFormData then [authHeader]
        else
          match opts.body with
          | some _ => [authHeader, ("Content-Type", "application/json")]
          | none => [authHeader]
      Except.ok { url := url ++ endpoint, method := opts.method,
                  headers := headers, body := opts.body }

/-- The two fields of a parsed JSON error body that the code reads. -/
structure ParsedJson where
  errorField : Option String
  messageField : Option String
  deriving DecidableEq, Repr

/-- What `makeApiCall` returns on a 2xx response. -/
inductive ApiResponseValue where
  | parsed (j : ParsedJson)
  | emptySuccess
  | rawSuccess (raw : String)
  deriving DecidableEq, Repr

/-- `errorData.message` as computed for a non-ok response: the parsed body's
`error` field, else its `message` field, else the default; when the body does
not parse, the raw body text, else the default. -/
def errMessageOf (parse : String → Option ParsedJson) (status : Nat) (body : String) :
    String :=
  match parse body with
  | some j =>
    match j.errorField with
    | some m => m
    | none =>
      match j.messageField with
      | some m => m
      | none => "HTTP error " ++ toString status
  | none => if body = "" then "HTTP error " ++ toString status else body

/-- `response.ok` per the fetch specification: status in the range 200-299. -/
def responseOk (status : Nat) : Bool :=
  decide (200 ≤ status) && decide (status ≤ 299)

/-- Everything `makeApiCall` does after `fetch`: throw a status-specific
error for a non-ok response; for an ok response return the parsed body,
a success object for an empty body, or the raw body when parsing fails. -/
def handleResponse (parse : String → Option ParsedJson) (status : Nat)
    (responseBody : String) : Except ClientError ApiResponseValue :=
  if responseOk status then
    if responseBody = "" then Except.ok ApiResponseValue.emptySuccess
    else
      match parse responseBody with
      | some j => Except.ok (ApiResponseValue.parsed j)
      | none => Except.ok (ApiResponseValue.rawSuccess responseBody)
  else
    let msg := errMessageOf parse status responseBody
    if status = 401 then Except.error (ClientError.apiUnauthorized msg)
    else if status = 403 then Except.error (ClientError.apiForbidden msg)
    else Except.error (ClientError.apiFailed status msg)

end ApiClient

namespace Inventory

/-! ## Concrete fixtures used by the closed instantiations below -/

def initState : StoreState :=
  { items := [], roles := [], auditLog := [], now := 0 }

def mkItem (id : String) (q : Int) : Item :=
  { id := id, name := id, quantity := q, price := 1, category := none,
    created_at := 0, updated_at := 0 }

/-- Store with item quantities [5, 12, 9, 10]. -/
def stockStore : StoreState :=
  { items := [mkItem "a" 5, mkItem "b" 12, mkItem "c" 9, mkItem "d" 10],
    roles := [], auditLog := [], now := 1 }

/-- Store holding one principal per role. -/
def roleStore : StoreState :=
  { items := [mkItem "w" 7],
    roles := [{ principal := "pa", role := Role.admin, assigned_at := 0, updated_at := 0 },
              { principal := "pm", role := Role.manager, assigned_at := 0, updated_at := 0 },
              { principal := "pv", role := Role.viewer, assigned_at := 0, updated_at := 0 }],
    auditLog := [], now := 1 }

def bulkFixtureFile : CsvFile :=
  { header := expectedCsvHeader,
    rows := [("w", "5"), ("w", "-2"), ("zz", "4"), ("w", "x")] }

def trendOldSnap (q : Int) : Option Snapshot :=
  some (Snapshot.itemSnap (mkItem "i1" q))

/-- Store whose item `i1` underwent three quantity updates 10 → 25 → 18 → 40. -/
def trendStore : StoreState :=
  { items := [{ mkItem "i1" 40 with updated_at := 3 }],
    roles := [],
    auditLog :=
      [{ id := 0, actor := "pm", action := "QUANTITY_UPDATED", table_name := "items",
         record_id := "i1", old_values := trendOldSnap 10, created_at := 1 },
       { id := 1, actor := "pm", action := "QUANTITY_UPDATED", table_name := "items",
         record_id := "i1", old_values := trendOldSnap 25, created_at := 2 },
       { id := 2, actor := "pm", action := "QUANTITY_UPDATED", table_name := "items",
         record_id := "i1", old_values := trendOldSnap 18, created_at := 3 }],
    now := 4 }

/-- The store after one valid bulk row `(iid, q)` has been applied and its
audit entry written: the quantity update followed by the audit append. -/
def bulkStepState (st : StoreState) (actor iid : String) (it : Item) (q : Int) :
    StoreState :=
  let newIt : Item := { it with quantity := q, updated_at := st.now }
  let st1 := { st with items := replaceItem st.items iid newIt }
  (recordAudit true st1 actor "QUANTITY_UPDATED" "items" iid
    (some (Snapshot.itemSnap it))).1

/-- The store after one valid bulk row has been applied but its audit write
failed: the mutation stands, the log is untouched. -/
def bulkStepStateNoAudit (st : StoreState) (iid : String) (it : Item) (q : Int) :
    StoreState :=
  let newIt : Item := { it with quantity := q, updated_at := st.now }
  { st with items := replaceItem st.items iid newIt }

def apiOptsNoToken : ApiClient.ApiCallOptions :=
  { method := "GET", body := none, isFormData := false, authToken := none }

def apiEnvServer : ApiClient.ClientEnv :=
  { isServer := true, publicApiUrl := none,
    internalApiUrl := some "http://backend:5000",
    sessionFetch := ApiClient.SessionFetch.noSession }

/-! ## Helper lemmas -/

theorem replaceItem_map_id (l : List Item) (id : String) (newIt : Item)
    (h : newIt.id = id) : (replaceItem l id newIt).map (·.id) = l.map (·.id) := by
  induction l with
  | nil => rfl
  | cons x xs ih =>
    simp only [replaceItem, List.map_cons] at *
    by_cases hx : x.id = id
    · simp [hx, h, ih]
    · simp [hx, ih]

theorem findItem_eq_none_iff (st : StoreState) (i : String) :
    findItem st i = none ↔ i ∉ itemIds st := by
  simp only [findItem, List.find?_eq_none, itemIds, List.mem_map, decide_eq_true_eq]
  constructor
  · rintro h ⟨x, hx, hxi⟩
    exact h x hx hxi
  · intro h x hx hxi
    exact h ⟨x, hx, hxi⟩

theorem findItem_isSome_mem (st : StoreState) (i : String) (it : Item)
    (h : findItem st i = some it) : i ∈ itemIds st := by
  have hmem := List.mem_of_find?_eq_some h
  have hid := List.find?_some h
  simp only [decide_eq_true_eq] at hid
  exact List.mem_map.mpr ⟨it, hmem, hid⟩

theorem find?_id_some_id (l : List Item) (i : String) (it : Item)
    (h : l.find? (fun x => x.id = i) = some it) : it.id = i := by
  have := List.find?_some h
  simpa using this


theorem rowInvalid_false_of_valid (ids : List String) (row : String × String)
    (q : Int) (hp : parseInt row.2 = some q) (hq : ¬ q < 0) (hm : row.1 ∈ ids) :
    rowInvalid ids row = false := by
  simp [rowInvalid, hp, hq, hm]

theorem processRows_cons_malformed (auditOk : Bool) (actor : String) (st : StoreState)
    (idx : Nat) (row : String × String) (rest : List (String × String))
    (hp : parseInt row.2 = none) :
    processRows auditOk actor st idx (row :: rest) =
      ((processRows auditOk actor st (idx + 1) rest).1,
       (processRows auditOk actor st (idx + 1) rest).2.1,
       { row_index := idx, item_id := row.1, reason := "malformed quantity" } ::
         (processRows auditOk actor st (idx + 1) rest).2.2) := by
  simp [processRows, hp]

theorem processRows_cons_negative (auditOk : Bool) (actor : String) (st : StoreState)
    (idx : Nat) (row : String × String) (rest : List (String × String)) (q : Int)
    (hp : parseInt row.2 = some q) (hq : q < 0) :
    processRows auditOk actor st idx (row :: rest) =
      ((processRows auditOk actor st (idx + 1) rest).1,
       (processRows auditOk actor st (idx + 1) rest).2.1,
       { row_index := idx, item_id := row.1, reason := "negative quantity" } ::
         (processRows auditOk actor st (idx + 1) rest).2.2) := by
  simp [processRows, hp, hq]

theorem processRows_cons_notfound (auditOk : Bool) (actor : String) (st : StoreState)
    (idx : Nat) (row : String × String) (rest : List (String × String)) (q : Int)
    (hp : parseInt row.2 = some q) (hq : ¬ q < 0) (hf : findItem st row.1 = none) :
    processRows auditOk actor st idx (row :: rest) =
      ((processRows auditOk actor st (idx + 1) rest).1,
       (processRows auditOk actor st (idx + 1) rest).2.1,
       { row_index := idx, item_id := row.1, reason := "item not found" } ::
         (processRows auditOk actor st (idx + 1) rest).2.2) := by
  simp [processRows, hp, hq, hf]

theorem processRows_cons_applied (actor : String) (st : StoreState)
    (idx : Nat) (row : String × String) (rest : List (String × String)) (q : Int)
    (it : Item) (hp : parseInt row.2 = some q) (hq : ¬ q < 0)
    (hf : findItem st row.1 = some it) :
    processRows true actor st idx (row :: rest) =
      ((processRows true actor (bulkStepState st actor row.1 it q) (idx + 1) rest).1,
       (processRows true actor (bulkStepState st actor row.1 it q) (idx + 1) rest).2.1 + 1,
       (processRows true actor (bulkStepState st actor row.1 it q) (idx + 1) rest).2.2) := by
  simp [processRows, hp, hq, hf, bulkStepState, recordAudit]

theorem processRows_cons_auditfail (actor : String) (st : StoreState)
    (idx : Nat) (row : String × String) (rest : List (String × String)) (q : Int)
    (it : Item) (hp : parseInt row.2 = some q) (hq : ¬ q < 0)
    (hf : findItem st row.1 = some it) :
    processRows false actor st idx (row :: rest) =
      ((processRows false actor (bulkStepStateNoAudit st row.1 it q) (idx + 1) rest).1,
       (processRows false actor (bulkStepStateNoAudit st row.1 it q) (idx + 1) rest).2.1,
       { row_index := idx, item_id := row.1, reason := "audit write failed" } ::
         (processRows false actor (bulkStepStateNoAudit st row.1 it q) (idx + 1) rest).2.2) := by
  simp [processRows, hp, hq, hf, bulkStepStateNoAudit, recordAudit]

theorem bulkStepState_map_id (st : StoreState) (actor iid : String) (it : Item)
    (q : Int) (hid : it.id = iid) :
    (bulkStepState st actor iid it q).items.map (·.id) = st.items.map (·.id) := by
  simp only [bulkStepState, recordAudit, if_pos]
  exact replaceItem_map_id st.items iid _ (by simpa using hid)

theorem bulkStepState_auditLog (st : StoreState) (actor iid : String) (it : Item)
    (q : Int) :
    (bulkStepState st actor iid it q).auditLog =
      st.auditLog ++
        [{ id := st.auditLog.length, actor := actor, action := "QUANTITY_UPDATED",
           table_name := "items", record_id := iid,
           old_values := some (Snapshot.itemSnap it), created_at := st.now }] := by
  simp [bulkStepState, recordAudit]

/-- Row processing: item ids are preserved, every row receives exactly one
outcome (applied or rejected), the rejected rows are exactly the invalid
ones, and every rejection carries a nonempty reason (stated for a store
whose audit writes succeed). -/
theorem processRows_spec (actor : String) :
    ∀ (rows : List (String × String)) (st : StoreState) (idx : Nat),
      ((processRows true actor st idx rows).1.items.map (·.id) = st.items.map (·.id)) ∧
      ((processRows true actor st idx rows).2.1 +
          (processRows true actor st idx rows).2.2.length = rows.length) ∧
      ((processRows true actor st idx rows).2.2.length =
          (rows.filter (rowInvalid (st.items.map (·.id)))).length) ∧
      (∀ r ∈ (processRows true actor st idx rows).2.2, r.reason ≠ "") := by
  intro rows
  induction rows with
  | nil => intro st idx; simp [processRows]
  | cons row rest ih =>
    intro st idx
    cases hp : parseInt row.2 with
    | none =>
      obtain ⟨h1, h2, h3, h4⟩ := ih st (idx + 1)
      have hinv : rowInvalid (st.items.map (·.id)) row = true := by
        simp [rowInvalid, hp]
      rw [processRows_cons_malformed true actor st idx row rest hp]
      refine ⟨h1, by simpa using by omega, ?_, ?_⟩
      · simp only [List.filter_cons, hinv, if_pos, List.length_cons]
        simpa using h3
      · intro r hr
        rcases List.mem_cons.mp hr with hr | hr
        · subst hr; simp
        · exact h4 r hr
    | some q =>
      by_cases hq : q < 0
      · obtain ⟨h1, h2, h3, h4⟩ := ih st (idx + 1)
        have hinv : rowInvalid (st.items.map (·.id)) row = true := by
          simp [rowInvalid, hp, hq]
        rw [processRows_cons_negative true actor st idx row rest q hp hq]
        refine ⟨h1, by simpa using by omega, ?_, ?_⟩
        · simp only [List.filter_cons, hinv, if_pos, List.length_cons]
          simpa using h3
        · intro r hr
          rcases List.mem_cons.mp hr with hr | hr
          · subst hr; simp
          · exact h4 r hr
      · cases hf : findItem st row.1 with
        | none =>
          obtain ⟨h1, h2, h3, h4⟩ := ih st (idx + 1)
          have hnm : row.1 ∉ st.items.map (·.id) := by
            have := (findItem_eq_none_iff st row.1).mp hf
            simpa [itemIds] using this
          have hinv : rowInvalid (st.items.map (·.id)) row = true := by
            simp [rowInvalid, hp, hq, hnm]
          rw [processRows_cons_notfound true actor st idx row rest q hp hq hf]
          refine ⟨h1, by simpa using by omega, ?_, ?_⟩
          · simp only [List.filter_cons, hinv, if_pos, List.length_cons]
            simpa using h3
          · intro r hr
            rcases List.mem_cons.mp hr with hr | hr
            · subst hr; simp
            · exact h4 r hr
        | some it =>
          have hid : it.id = row.1 := find?_id_some_id st.items row.1 it hf
          have hmem : row.1 ∈ st.items.map (·.id) := by
            have := findItem_isSome_mem st row.1 it hf
            simpa [itemIds] using this
          have hinv : rowInvalid (st.items.map (·.id)) row = false :=
            rowInvalid_false_of_valid _ row q hp hq hmem
          obtain ⟨h1, h2, h3, h4⟩ := ih (bulkStepState st actor row.1 it q) (idx + 1)
          have hids := bulkStepState_map_id st actor row.1 it q hid
          rw [processRows_cons_applied actor st idx row rest q it hp hq hf]
          refine ⟨by rw [h1, hids], by simpa using by omega, ?_, h4⟩
          · rw [hids] at h3
            simp only [List.filter_cons, hinv, List.length_cons]
            simpa using h3

/-- Row processing only ever appends to the audit log. -/
theorem processRows_audit (auditOk : Bool) (actor : String) :
    ∀ (rows : List (String × String)) (st : StoreState) (idx : Nat),
      ∃ tail, (processRows auditOk actor st idx rows).1.auditLog = st.auditLog ++ tail := by
  intro rows
  induction rows with
  | nil => intro st idx; exact ⟨[], by simp [processRows]⟩
  | cons row rest ih =>
    intro st idx
    cases hp : parseInt row.2 with
    | none =>
      rw [processRows_cons_malformed auditOk actor st idx row rest hp]
      simpa using ih st (idx + 1)
    | some q =>
      by_cases hq : q < 0
      · rw [processRows_cons_negative auditOk actor st idx row rest q hp hq]
        simpa using ih st (idx + 1)
      · cases hf : findItem st row.1 with
        | none =>
          rw [processRows_cons_notfound auditOk actor st idx row rest q hp hq hf]
          simpa using ih st (idx + 1)
        | some it =>
          cases auditOk with
          | false =>
            rw [processRows_cons_auditfail actor st idx row rest q it hp hq hf]
            obtain ⟨tail, ht⟩ := ih (bulkStepStateNoAudit st row.1 it q) (idx + 1)
            exact ⟨tail, by simpa [bulkStepStateNoAudit] using ht⟩
          | true =>
            rw [processRows_cons_applied actor st idx row rest q it hp hq hf]
            obtain ⟨tail, ht⟩ := ih (bulkStepState st actor row.1 it q) (idx + 1)
            refine ⟨{ id := st.auditLog.length, actor := actor,
                      action := "QUANTITY_UPDATED", table_name := "items",
                      record_id := row.1,
                      old_values := some (Snapshot.itemSnap it),
                      created_at := st.now } :: tail, ?_⟩
            rw [ht, bulkStepState_auditLog]
            simp

theorem createItemH_audit_append (b : Bool) (st : StoreState) (actor : String)
    (p : ItemPayload) :
    ∃ tail, (createItemH b st actor p).1.auditLog = st.auditLog ++ tail := by
  cases hv : validatePayload p with
  | some m => exact ⟨[], by simp [createItemH, hv]⟩
  | none =>
    cases b with
    | false => exact ⟨[], by simp [createItemH, hv, recordAudit]⟩
    | true =>
      refine ⟨[{ id := st.auditLog.length, actor := actor, action := "ITEM_CREATED",
                 table_name := "items", record_id := "item-" ++ toString st.now,
                 old_values := none, created_at := st.now }], ?_⟩
      simp [createItemH, hv, recordAudit]

theorem updateItemH_audit_append (b : Bool) (st : StoreState) (actor id : String)
    (p : ItemPayload) :
    ∃ tail, (updateItemH b st actor id p).1.auditLog = st.auditLog ++ tail := by
  cases hf : findItem st id with
  | none => exact ⟨[], by simp [updateItemH, hf]⟩
  | some it =>
    cases hv : validatePayload p with
    | some m => exact ⟨[], by simp [updateItemH, hf, hv]⟩
    | none =>
      cases b with
      | false => exact ⟨[], by simp [updateItemH, hf, hv, recordAudit]⟩
      | true =>
        refine ⟨[{ id := st.auditLog.length, actor := actor, action := "ITEM_UPDATED",
                   table_name := "items", record_id := id,
                   old_values := some (Snapshot.itemSnap it), created_at := st.now }], ?_⟩
        simp [updateItemH, hf, hv, recordAudit]

theorem updateQuantityH_audit_append (b : Bool) (st : StoreState) (actor id : String)
    (q : Int) :
    ∃ tail, (updateQuantityH b st actor id q).1.auditLog = st.auditLog ++ tail := by
  cases hf : findItem st id with
  | none => exact ⟨[], by simp [updateQuantityH, hf]⟩
  | some it =>
    by_cases hq : q < 0
    · exact ⟨[], by simp [updateQuantityH, hf, hq]⟩
    · cases b with
      | false => exact ⟨[], by simp [updateQuantityH, hf, hq, recordAudit]⟩
      | true =>
        refine ⟨[{ id := st.auditLog.length, actor := actor, action := "QUANTITY_UPDATED",
                   table_name := "items", record_id := id,
                   old_values := some (Snapshot.itemSnap it), created_at := st.now }], ?_⟩
        simp [updateQuantityH, hf, hq, recordAudit]

theorem deleteItemH_audit_append (b : Bool) (st : StoreState) (actor id : String) :
    ∃ tail, (deleteItemH b st actor id).1.auditLog = st.auditLog ++ tail := by
  cases hf : findItem st id with
  | none => exact ⟨[], by simp [deleteItemH, hf]⟩
  | some it =>
    cases b with
    | false => exact ⟨[], by simp [deleteItemH, hf, recordAudit]⟩
    | true =>
      refine ⟨[{ id := st.auditLog.length, actor := actor, action := "ITEM_DELETED",
                 table_name := "items", record_id := id,
                 old_values := some (Snapshot.itemSnap it), created_at := st.now }], ?_⟩
      simp [deleteItemH, hf, recordAudit]

theorem setRoleH_audit_append (b : Bool) (st : StoreState) (actor uid : String)
    (r : Role) :
    ∃ tail, (setRoleH b st actor uid r).1.auditLog = st.auditLog ++ tail := by
  cases b with
  | false => exact ⟨[], by simp [setRoleH, recordAudit]⟩
  | true =>
    refine ⟨[{ id := st.auditLog.length, actor := actor, action := "ROLE_ASSIGNED",
               table_name := "user_roles", record_id := uid,
               old_values := (findRole st uid).map Snapshot.roleSnap,
               created_at := st.now }], ?_⟩
    simp [setRoleH, recordAudit]

theorem bulkUpdateH_audit_append (b : Bool) (st : StoreState) (actor : String)
    (file : Option CsvFile) :
    ∃ tail, (bulkUpdateH b st actor file).1.auditLog = st.auditLog ++ tail := by
  cases file with
  | none => exact ⟨[], by simp [bulkUpdateH]⟩
  | some f =>
    by_cases hh : f.header = expectedCsvHeader
    · cases hr : f.rows with
      | nil => exact ⟨[], by simp [bulkUpdateH, hh, hr]⟩
      | cons a as =>
        obtain ⟨tail, ht⟩ := processRows_audit b actor (a :: as) st 0
        exact ⟨tail, by simpa [bulkUpdateH, hh, hr] using ht⟩
    · exact ⟨[], by simp [bulkUpdateH, hh]⟩

/-- Every operation only ever appends to the audit log; nothing updates or
deletes an existing entry. -/
theorem runOp_audit_append (b : Bool) (st : StoreState) (actor : String)
    (op : Operation) :
    ∃ tail, (runOp b st actor op).1.auditLog = st.auditLog ++ tail := by
  cases op with
  | createItem p => simpa [runOp] using createItemH_audit_append b st actor p
  | listItems => exact ⟨[], by simp [runOp]⟩
  | getItem id => exact ⟨[], by simp [runOp]⟩
  | updateItem id p => simpa [runOp] using updateItemH_audit_append b st actor id p
  | updateQuantity id q => simpa [runOp] using updateQuantityH_audit_append b st actor id q
  | deleteItem id => simpa [runOp] using deleteItemH_audit_append b st actor id
  | bulkUpdate file => simpa [runOp] using bulkUpdateH_audit_append b st actor file
  | getTrends id => exact ⟨[], by simp [runOp]⟩
  | listUsers => exact ⟨[], by simp [runOp]⟩
  | getRoleOf uid => exact ⟨[], by simp [runOp]⟩
  | setUserRole uid r => simpa [runOp] using setRoleH_audit_append b st actor uid r
  | lowStockOp => exact ⟨[], by simp [runOp]⟩
  | monthlyReportOp => exact ⟨[], by simp [runOp]⟩
  | auditLogsOp => exact ⟨[], by simp [runOp]⟩

/-- Claim C1: every successful mutating operation (item create, full update,
quantity update, delete, role assignment) appends exactly one audit entry
whose `old_values` is the affected record's full pre-mutation state (null for
create), and no application code path updates or deletes an existing audit
entry (every path only appends). -/
theorem audit_trail_exactly_one_entry (st : StoreState) (actor : String)
    (op : Operation) :
    (isSingleMutation op = true →
       (∃ resp, (runOp true st actor op).2 = Except.ok resp) →
       ∃ e, (runOp true st actor op).1.auditLog = st.auditLog ++ [e] ∧
            e.old_values = preSnapshot st op) ∧
    (∀ b cred, ∃ tail,
       (pipeline b st cred op).1.auditLog = st.auditLog ++ tail) := by
  constructor
  · intro hmut hok
    cases op with
    | createItem p =>
      cases hv : validatePayload p with
      | some m => simp [runOp, createItemH, hv, Except.map] at hok
      | none =>
        refine ⟨{ id := st.auditLog.length, actor := actor, action := "ITEM_CREATED",
                  table_name := "items", record_id := "item-" ++ toString st.now,
                  old_values := none, created_at := st.now }, ?_, ?_⟩
        · simp [runOp, createItemH, hv, recordAudit]
        · simp [preSnapshot]
    | updateItem id p =>
      cases hf : findItem st id with
      | none => simp [runOp, updateItemH, hf, Except.map] at hok
      | some it =>
        cases hv : validatePayload p with
        | some m => simp [runOp, updateItemH, hf, hv, Except.map] at hok
        | none =>
          refine ⟨{ id := st.auditLog.length, actor := actor, action := "ITEM_UPDATED",
                    table_name := "items", record_id := id,
                    old_values := some (Snapshot.itemSnap it),
                    created_at := st.now }, ?_, ?_⟩
          · simp [runOp, updateItemH, hf, hv, recordAudit]
          · simp [preSnapshot, hf]
    | updateQuantity id q =>
      cases hf : findItem st id with
      | none => simp [runOp, updateQuantityH, hf, Except.map] at hok
      | some it =>
        by_cases hq : q < 0
        · simp [runOp, updateQuantityH, hf, hq, Except.map] at hok
        · refine ⟨{ id := st.auditLog.length, actor := actor,
                    action := "QUANTITY_UPDATED", table_name := "items",
                    record_id := id, old_values := some (Snapshot.itemSnap it),
                    created_at := st.now }, ?_, ?_⟩
          · simp [runOp, updateQuantityH, hf, hq, recordAudit]
          · simp [preSnapshot, hf]
    | deleteItem id =>
      cases hf : findItem st id with
      | none => simp [runOp, deleteItemH, hf, Except.map] at hok
      | some it =>
        refine ⟨{ id := st.auditLog.length, actor := actor, action := "ITEM_DELETED",
                  table_name := "items", record_id := id,
                  old_values := some (Snapshot.itemSnap it),
                  created_at := st.now }, ?_, ?_⟩
        · simp [runOp, deleteItemH, hf, recordAudit]
        · simp [preSnapshot, hf]
    | setUserRole uid r =>
      refine ⟨{ id := st.auditLog.length, actor := actor, action := "ROLE_ASSIGNED",
                table_name := "user_roles", record_id := uid,
                old_values := (findRole st uid).map Snapshot.roleSnap,
                created_at := st.now }, ?_, ?_⟩
      · simp [runOp, setRoleH, recordAudit]
      · simp [preSnapshot]
    | listItems => simp [isSingleMutation] at hmut
    | getItem id => simp [isSingleMutation] at hmut
    | bulkUpdate file => simp [isSingleMutation] at hmut
    | getTrends id => simp [isSingleMutation] at hmut
    | listUsers => simp [isSingleMutation] at hmut
    | getRoleOf uid => simp [isSingleMutation] at hmut
    | lowStockOp => simp [isSingleMutation] at hmut
    | monthlyReportOp => simp [isSingleMutation] at hmut
    | auditLogsOp => simp [isSingleMutation] at hmut
  · intro b cred
    cases cred with
    | missing => exact ⟨[], by simp [pipeline]⟩
    | malformed => exact ⟨[], by simp [pipeline]⟩
    | expired => exact ⟨[], by simp [pipeline]⟩
    | valid p =>
      cases hrole : getRole st p with
      | none => exact ⟨[], by simp [pipeline, hrole]⟩
      | some r =>
        by_cases hmem : r ∈ allowedRoles op
        · obtain ⟨tail, ht⟩ := runOp_audit_append b st p op
          exact ⟨tail, by simpa [pipeline, hrole, hmem] using ht⟩
        · exact ⟨[], by simp [pipeline, hrole, hmem]⟩

/-- Claim C3: when the underlying data change of a mutating operation has
committed but the audit entry cannot be durably written, the operation is
reported failed with the 500-class `AuditWriteFailure` error while the data
change is not rolled back: the post-state data (items and roles) equals the
success-path data and still contains the mutation, only the audit entry is
missing. -/
theorem audit_write_failure_surfaced (st : StoreState) (actor : String)
    (op : Operation) (hmut : isSingleMutation op = true)
    (hok : ∃ resp, (runOp true st actor op).2 = Except.ok resp) :
    (runOp false st actor op).2 = Except.error ApiErr.auditWriteFailure ∧
    httpStatus ApiErr.auditWriteFailure = 500 ∧
    (runOp false st actor op).1.items = (runOp true st actor op).1.items ∧
    (runOp false st actor op).1.roles = (runOp true st actor op).1.roles ∧
    (runOp false st actor op).1.auditLog = st.auditLog := by
  cases op with
  | createItem p =>
    cases hv : validatePayload p with
    | some m => simp [runOp, createItemH, hv, Except.map] at hok
    | none => simp [runOp, createItemH, hv, recordAudit, httpStatus, Except.map]
  | updateItem id p =>
    cases hf : findItem st id with
    | none => simp [runOp, updateItemH, hf, Except.map] at hok
    | some it =>
      cases hv : validatePayload p with
      | some m => simp [runOp, updateItemH, hf, hv, Except.map] at hok
      | none => simp [runOp, updateItemH, hf, hv, recordAudit, httpStatus, Except.map]
  | updateQuantity id q =>
    cases hf : findItem st id with
    | none => simp [runOp, updateQuantityH, hf, Except.map] at hok
    | some it =>
      by_cases hq : q < 0
      · simp [runOp, updateQuantityH, hf, hq, Except.map] at hok
      · simp [runOp, updateQuantityH, hf, hq, recordAudit, httpStatus, Except.map]
  | deleteItem id =>
    cases hf : findItem st id with
    | none => simp [runOp, deleteItemH, hf, Except.map] at hok
    | some it => simp [runOp, deleteItemH, hf, recordAudit, httpStatus, Except.map]
  | setUserRole uid r => simp [runOp, setRoleH, recordAudit, httpStatus, Except.map]
  | listItems => simp [isSingleMutation] at hmut
  | getItem id => simp [isSingleMutation] at hmut
  | bulkUpdate file => simp [isSingleMutation] at hmut
  | getTrends id => simp [isSingleMutation] at hmut
  | listUsers => simp [isSingleMutation] at hmut
  | getRoleOf uid => simp [isSingleMutation] at hmut
  | lowStockOp => simp [isSingleMutation] at hmut
  | monthlyReportOp => simp [isSingleMutation] at hmut
  | auditLogsOp => simp [isSingleMutation] at hmut

/-- Claim C2: bulk CSV ingestion over a readable stream with a valid header
and a nonempty row list applies exactly N − K quantity updates (N rows, K
row-level-invalid rows: malformed quantity, non-existent item id, or
negative quantity), reports exactly K rejected rows each with a reason, lets
no row affect any other row's outcome (every row gets exactly one outcome),
raises no call-level error for row-level problems, and raises only for
file-level problems (unreadable stream, missing header, zero rows). -/
theorem bulk_ingestion_row_independence (st : StoreState) (actor : String) :
    (∀ f : CsvFile, f.header = expectedCsvHeader → f.rows ≠ [] →
       ∃ st' res, bulkUpdateH true st actor (some f) = (st', Except.ok res) ∧
         res.processed = f.rows.length ∧
         res.applied + res.rejected.length = f.rows.length ∧
         res.rejected.length = (f.rows.filter (rowInvalid (itemIds st))).length ∧
         res.applied =
           f.rows.length - (f.rows.filter (rowInvalid (itemIds st))).length ∧
         ∀ r ∈ res.rejected, r.reason ≠ "") ∧
    (bulkUpdateH true st actor none =
       (st, Except.error (ApiErr.validationError "unreadable stream"))) ∧
    (∀ f : CsvFile, f.header ≠ expectedCsvHeader →
       bulkUpdateH true st actor (some f) =
         (st, Except.error (ApiErr.validationError "missing header"))) ∧
    (∀ f : CsvFile, f.header = expectedCsvHeader → f.rows = [] →
       bulkUpdateH true st actor (some f) =
         (st, Except.error (ApiErr.validationError "zero rows"))) := by
  refine ⟨?_, by simp [bulkUpdateH], ?_, ?_⟩
  · intro f hh hr
    obtain ⟨h1, h2, h3, h4⟩ := processRows_spec actor f.rows st 0
    have heq : bulkUpdateH true st actor (some f) =
        ((processRows true actor st 0 f.rows).1,
         Except.ok { processed := f.rows.length,
                     applied := (processRows true actor st 0 f.rows).2.1,
                     rejected := (processRows true actor st 0 f.rows).2.2 }) := by
      obtain ⟨a, as, hrows⟩ := List.exists_cons_of_ne_nil hr
      simp [bulkUpdateH, hh, hrows]
    have h3i : (processRows true actor st 0 f.rows).2.2.length =
        (f.rows.filter (rowInvalid (itemIds st))).length := by
      simpa [itemIds] using h3
    refine ⟨(processRows true actor st 0 f.rows).1,
      { processed := f.rows.length,
        applied := (processRows true actor st 0 f.rows).2.1,
        rejected := (processRows true actor st 0 f.rows).2.2 },
      heq, rfl, h2, h3i, ?_, h4⟩
    show (processRows true actor st 0 f.rows).2.1 =
      f.rows.length - (f.rows.filter (rowInvalid (itemIds st))).length
    omega
  · intro f hh
    simp [bulkUpdateH, hh]
  · intro f hh hr
    simp [bulkUpdateH, hh, hr]

/-- Claim C4: a principal with no role assignment fails every protected
operation with `Forbidden`, and an invalid credential (missing, malformed or
expired) fails with `Unauthenticated`; an unassigned principal is never
treated as holding a default role and no protected operation succeeds for
it. -/
theorem unassigned_principal_forbidden (b : Bool) (st : StoreState)
    (cred : Credential) (op : Operation) :
    (cred = Credential.missing ∨ cred = Credential.malformed ∨
        cred = Credential.expired →
      pipeline b st cred op = (st, Except.error ApiErr.unauthenticated)) ∧
    (∀ p, cred = Credential.valid p → getRole st p = none →
      pipeline b st cred op = (st, Except.error ApiErr.forbidden)) := by
  constructor
  · rintro (h | h | h) <;> subst h <;> simp [pipeline]
  · rintro p rfl hrole
    simp [pipeline, hrole]

/-- Claim C5: the monthly inventory report succeeds only for admin callers:
an authenticated caller whose role is manager or viewer, or who has no role,
fails with `Forbidden` and receives no report, while an admin caller
receives the report. -/
theorem monthly_report_requires_admin (b : Bool) (st : StoreState) (p : String) :
    (∀ r, getRole st p = some r → r ≠ Role.admin →
       pipeline b st (Credential.valid p) Operation.monthlyReportOp =
         (st, Except.error ApiErr.forbidden)) ∧
    (getRole st p = none →
       pipeline b st (Credential.valid p) Operation.monthlyReportOp =
         (st, Except.error ApiErr.forbidden)) ∧
    (getRole st p = some Role.admin →
       pipeline b st (Credential.valid p) Operation.monthlyReportOp =
         (st, Except.ok (Response.report (monthlyReportH st)))) := by
  refine ⟨?_, ?_, ?_⟩
  · intro r hrole hne
    cases r with
    | admin => exact absurd rfl hne
    | manager => simp [pipeline, hrole, allowedRoles]
    | viewer => simp [pipeline, hrole, allowedRoles]
  · intro hrole
    simp [pipeline, hrole]
  · intro hrole
    simp [pipeline, hrole, allowedRoles, runOp]

/-- Claim C6: full item update (PUT /api/items/id) is permitted exactly to
admin and manager callers: a viewer or unassigned caller fails with
`Forbidden`, while an admin or manager caller whose target item exists and
whose payload is valid succeeds — in particular a manager can perform a
full update, not only a quantity-only one. -/
theorem full_update_admin_or_manager (st : StoreState) (p id : String)
    (payload : ItemPayload) :
    (∀ b, getRole st p = some Role.viewer →
       pipeline b st (Credential.valid p) (Operation.updateItem id payload) =
         (st, Except.error ApiErr.forbidden)) ∧
    (∀ b, getRole st p = none →
       pipeline b st (Credential.valid p) (Operation.updateItem id payload) =
         (st, Except.error ApiErr.forbidden)) ∧
    (∀ r, getRole st p = some r → (r = Role.admin ∨ r = Role.manager) →
       ∀ it, findItem st id = some it → validatePayload payload = none →
         (pipeline true st (Credential.valid p)
             (Operation.updateItem id payload)).2 =
           Except.ok (Response.item
             { it with name := payload.name, quantity := payload.quantity,
                       price := payload.price, category := payload.category,
                       updated_at := st.now })) := by
  refine ⟨?_, ?_, ?_⟩
  · intro b hrole
    simp [pipeline, hrole, allowedRoles]
  · intro b hrole
    simp [pipeline, hrole]
  · rintro r hrole (rfl | rfl) it hf hv <;>
      simp [pipeline, hrole, allowedRoles, runOp, updateItemH, hf, hv,
        recordAudit, Except.map]

theorem snapQuantity_fst (e : AuditLogEntry) (x : Nat × Int)
    (h : snapQuantity e = some x) : x.1 = e.created_at := by
  unfold snapQuantity at h
  cases hov : e.old_values with
  | none => simp [hov] at h
  | some s =>
    cases s with
    | itemSnap old =>
      rw [hov] at h
      simp only [Option.some.injEq] at h
      rw [← h]
    | roleSnap ra => simp [hov] at h

theorem histPoints_pairwise (st : StoreState) (id : String) (hwf : WF st) :
    (histPoints st id).Pairwise (fun a b => a.1 < b.1) := by
  have hhist : (itemHistEntries st id).Pairwise
      (fun a b => a.created_at < b.created_at) :=
    List.Pairwise.sublist (List.filter_sublist _) hwf.1
  refine List.Pairwise.filterMap snapQuantity ?_ hhist
  intro e e' hlt x hx x' hx'
  rw [Option.mem_def] at hx hx'
  rw [snapQuantity_fst e x hx, snapQuantity_fst e' x' hx']
  exact hlt

theorem histPoints_fst_lt_now (st : StoreState) (id : String) (hwf : WF st) :
    ∀ x ∈ histPoints st id, x.1 < st.now := by
  intro x hx
  obtain ⟨e, he, hse⟩ := List.mem_filterMap.mp hx
  have hmem : e ∈ st.auditLog := List.mem_of_mem_filter he
  rw [snapQuantity_fst e x hse]
  exact hwf.2 e hmem

/-- Claim C7: for every existing item, the trend series is strictly ordered
by time and its last point's quantity equals the item's current quantity; an
item that underwent three quantity updates (three history entries) yields a
3-or-4-point series; for a non-existent item id, trend fails with
`NotFound`. -/
theorem trend_series_spec (st : StoreState) (id : String) (hwf : WF st) :
    (findItem st id = none → trendH st id = Except.error ApiErr.notFound) ∧
    (∀ it, findItem st id = some it →
       ∃ pts, trendH st id = Except.ok pts ∧
         pts.getLast? = some (st.now, it.quantity) ∧
         pts.Pairwise (fun a b => a.1 < b.1) ∧
         pts.length = (histPoints st id).length + 1 ∧
         ((histPoints st id).length = 3 → pts.length = 3 ∨ pts.length = 4)) := by
  constructor
  · intro hf
    simp [trendH, hf]
  · intro it hf
    refine ⟨trendPoints st id it, by simp [trendH, hf], ?_, ?_, ?_, ?_⟩
    · simp [trendPoints, List.getLast?_concat]
    · rw [trendPoints, List.pairwise_append]
      refine ⟨histPoints_pairwise st id hwf, List.pairwise_singleton _ _, ?_⟩
      intro a ha b hb
      rw [List.mem_singleton] at hb
      subst hb
      exact histPoints_fst_lt_now st id hwf a ha
    · simp [trendPoints]
    · intro h3
      right
      simp [trendPoints, h3]

/-- Claim C8: `low_stock` with the fixed threshold 10 returns exactly the
items whose quantity is strictly below 10 (an item with quantity exactly 10
is excluded), sorted by quantity ascending; on a store with quantities
[5, 12, 9, 10] the result is exactly the quantity-5 item followed by the
quantity-9 item. -/
theorem low_stock_below_threshold_sorted :
    (∀ st : StoreState, List.Sorted itemLe (lowStockH st)) ∧
    (∀ (st : StoreState) (x : Item),
       x ∈ lowStockH st ↔ x ∈ st.items ∧ x.quantity < lowStockThreshold) ∧
    lowStockH stockStore = [mkItem "a" 5, mkItem "c" 9] := by
  refine ⟨?_, ?_, ?_⟩
  · intro st
    exact List.sorted_insertionSort itemLe _
  · intro st x
    rw [lowStockH, (List.perm_insertionSort itemLe _).mem_iff, List.mem_filter]
    simp
  · decide

/-- Claim C9: every request `makeApiCall` actually issues carries an
`Authorization: Bearer token` header, and when no token can be obtained (none
passed in on the server side; no active session on the client side) the
function throws before performing any network call. -/
theorem bearer_header_always_present (opts : ApiClient.ApiCallOptions)
    (env : ApiClient.ClientEnv) (endpoint : String) :
    (∀ req, ApiClient.buildRequest opts env endpoint = Except.ok req →
       ∃ t, ("Authorization", "Bearer " ++ t) ∈ req.headers) ∧
    (opts.authToken = none →
      (env.isServer = true ∨
        ∀ t, env.sessionFetch ≠ ApiClient.SessionFetch.session t) →
      ∃ e, ApiClient.buildRequest opts env endpoint = Except.error e) := by
  constructor
  · intro req hreq
    cases hsrv : env.isServer with
    | true =>
      cases hbu : env.internalApiUrl with
      | none => simp [ApiClient.buildRequest, hsrv, hbu] at hreq
      | some url =>
        cases htok : opts.authToken with
        | none => simp [ApiClient.buildRequest, hsrv, hbu, htok] at hreq
        | some t =>
          refine ⟨t, ?_⟩
          by_cases hform : opts.isFormData = true
          · simp [ApiClient.buildRequest, hsrv, hbu, htok, hform] at hreq
            rw [← hreq]
            simp
          · rw [Bool.not_eq_true] at hform
            cases hbody : opts.body with
            | none =>
              simp [ApiClient.buildRequest, hsrv, hbu, htok, hform, hbody] at hreq
              rw [← hreq]
              simp
            | some s =>
              simp [ApiClient.buildRequest, hsrv, hbu, htok, hform, hbody] at hreq
              rw [← hreq]
              simp
    | false =>
      cases hbu : env.publicApiUrl with
      | none => simp [ApiClient.buildRequest, hsrv, hbu] at hreq
      | some url =>
        cases htok : opts.authToken with
        | none =>
          cases hs : env.sessionFetch with
          | fetchError m => simp [ApiClient.buildRequest, hsrv, hbu, htok, hs] at hreq
          | noSession => simp [ApiClient.buildRequest, hsrv, hbu, htok, hs] at hreq
          | session t =>
            refine ⟨t, ?_⟩
            by_cases hform : opts.isFormData = true
            · simp [ApiClient.buildRequest, hsrv, hbu, htok, hs, hform] at hreq
              rw [← hreq]
              simp
            · rw [Bool.not_eq_true] at hform
              cases hbody : opts.body with
              | none =>
                simp [ApiClient.buildRequest, hsrv, hbu, htok, hs, hform, hbody] at hreq
                rw [← hreq]
                simp
              | some s =>
                simp [ApiClient.buildRequest, hsrv, hbu, htok, hs, hform, hbody] at hreq
                rw [← hreq]
                simp
        | some t =>
          refine ⟨t, ?_⟩
          by_cases hform : opts.isFormData = true
          · simp [ApiClient.buildRequest, hsrv, hbu, htok, hform] at hreq
            rw [← hreq]
            simp
          · rw [Bool.not_eq_true] at hform
            cases hbody : opts.body with
            | none =>
              simp [ApiClient.buildRequest, hsrv, hbu, htok, hform, hbody] at hreq
              rw [← hreq]
              simp
            | some s =>
              simp [ApiClient.buildRequest, hsrv, hbu, htok, hform, hbody] at hreq
              rw [← hreq]
              simp
  · intro htok hno
    cases hsrv : env.isServer with
    | true =>
      cases hbu : env.internalApiUrl with
      | none =>
        exact ⟨ApiClient.ClientError.configMissing "INTERNAL_API_BASE_URL",
          by simp [ApiClient.buildRequest, hsrv, hbu]⟩
      | some url =>
        exact ⟨ApiClient.ClientError.tokenUnobtainable,
          by simp [ApiClient.buildRequest, hsrv, hbu, htok]⟩
    | false =>
      rcases hno with hno | hno
      · rw [hsrv] at hno
        exact absurd hno (by simp)
      · cases hbu : env.publicApiUrl with
        | none =>
          exact ⟨ApiClient.ClientError.configMissing "NEXT_PUBLIC_API_BASE_URL",
            by simp [ApiClient.buildRequest, hsrv, hbu]⟩
        | some url =>
          cases hs : env.sessionFetch with
          | fetchError m =>
            exact ⟨ApiClient.ClientError.sessionError m,
              by simp [ApiClient.buildRequest, hsrv, hbu, htok, hs]⟩
          | noSession =>
            exact ⟨ApiClient.ClientError.tokenUnobtainable,
              by simp [ApiClient.buildRequest, hsrv, hbu, htok, hs]⟩
          | session t => exact absurd hs (hno t)

/-- Claim C10: `makeApiCall` throws for every non-2xx response status, with
messages distinguishing 401 Unauthorized and 403 Forbidden from other
statuses, and never throws for a 2xx response: it returns the parsed JSON
body, a plain success value when the body is empty, and a raw-body success
value when the body is not valid JSON. -/
theorem response_status_handling (parse : String → Option ApiClient.ParsedJson)
    (status : Nat) (body : String) :
    (¬ (200 ≤ status ∧ status ≤ 299) →
      (status = 401 →
        ApiClient.handleResponse parse status body =
          Except.error (ApiClient.ClientError.apiUnauthorized
            (ApiClient.errMessageOf parse status body))) ∧
      (status = 403 →
        ApiClient.handleResponse parse status body =
          Except.error (ApiClient.ClientError.apiForbidden
            (ApiClient.errMessageOf parse status body))) ∧
      (status ≠ 401 → status ≠ 403 →
        ApiClient.handleResponse parse status body =
          Except.error (ApiClient.ClientError.apiFailed status
            (ApiClient.errMessageOf parse status body)))) ∧
    ((200 ≤ status ∧ status ≤ 299) →
      (body = "" →
        ApiClient.handleResponse parse status body =
          Except.ok ApiClient.ApiResponseValue.emptySuccess) ∧
      (∀ j, body ≠ "" → parse body = some j →
        ApiClient.handleResponse parse status body =
          Except.ok (ApiClient.ApiResponseValue.parsed j)) ∧
      (body ≠ "" → parse body = none →
        ApiClient.handleResponse parse status body =
          Except.ok (ApiClient.ApiResponseValue.rawSuccess body))) := by
  constructor
  · intro hbad
    have hok : ApiClient.responseOk status = false := by
      simp [ApiClient.responseOk]
      omega
    refine ⟨?_, ?_, ?_⟩
    · intro h401
      subst h401
      simp [ApiClient.handleResponse, hok]
    · intro h403
      subst h403
      simp [ApiClient.handleResponse, hok]
    · intro h401 h403
      simp [ApiClient.handleResponse, hok, h401, h403]
  · intro hgood
    have hok : ApiClient.responseOk status = true := by
      simp [ApiClient.responseOk]
      omega
    refine ⟨?_, ?_, ?_⟩
    · intro hbody
      simp [ApiClient.handleResponse, hok, hbody]
    · intro j hbody hparse
      simp [ApiClient.handleResponse, hok, hbody, hparse]
    · intro hbody hparse
      simp [ApiClient.handleResponse, hok, hbody, hparse]

theorem audit_trail_exactly_one_entry_witness :
    isSingleMutation (Operation.updateQuantity "w" 5) = true ∧
    (∃ resp, (runOp true roleStore "pm" (Operation.updateQuantity "w" 5)).2 =
        Except.ok resp) ∧
    ∃ e, (runOp true roleStore "pm" (Operation.updateQuantity "w" 5)).1.auditLog =
          roleStore.auditLog ++ [e] ∧
        e.old_values = preSnapshot roleStore (Operation.updateQuantity "w" 5) :=
  ⟨rfl, ⟨_, rfl⟩,
    (audit_trail_exactly_one_entry roleStore "pm" (Operation.updateQuantity "w" 5)).1
      rfl ⟨_, rfl⟩⟩

theorem bulk_ingestion_row_independence_witness :
    bulkFixtureFile.header = expectedCsvHeader ∧
    bulkFixtureFile.rows ≠ [] ∧
    ∃ st' res, bulkUpdateH true roleStore "pm" (some bulkFixtureFile) =
        (st', Except.ok res) ∧
      res.processed = bulkFixtureFile.rows.length ∧
      res.applied + res.rejected.length = bulkFixtureFile.rows.length ∧
      res.rejected.length =
        (bulkFixtureFile.rows.filter (rowInvalid (itemIds roleStore))).length ∧
      res.applied = bulkFixtureFile.rows.length -
        (bulkFixtureFile.rows.filter (rowInvalid (itemIds roleStore))).length ∧
      ∀ r ∈ res.rejected, r.reason ≠ "" :=
  ⟨rfl, by simp [bulkFixtureFile],
    (bulk_ingestion_row_independence roleStore "pm").1 bulkFixtureFile rfl
      (by simp [bulkFixtureFile])⟩

theorem audit_write_failure_surfaced_witness :
    isSingleMutation (Operation.deleteItem "w") = true ∧
    (∃ resp, (runOp true roleStore "pa" (Operation.deleteItem "w")).2 =
        Except.ok resp) ∧
    ((runOp false roleStore "pa" (Operation.deleteItem "w")).2 =
        Except.error ApiErr.auditWriteFailure ∧
      httpStatus ApiErr.auditWriteFailure = 500 ∧
      (runOp false roleStore "pa" (Operation.deleteItem "w")).1.items =
        (runOp true roleStore "pa" (Operation.deleteItem "w")).1.items ∧
      (runOp false roleStore "pa" (Operation.deleteItem "w")).1.roles =
        (runOp true roleStore "pa" (Operation.deleteItem "w")).1.roles ∧
      (runOp false roleStore "pa" (Operation.deleteItem "w")).1.auditLog =
        roleStore.auditLog) :=
  ⟨rfl, ⟨_, rfl⟩,
    audit_write_failure_surfaced roleStore "pa" (Operation.deleteItem "w") rfl ⟨_, rfl⟩⟩

theorem unassigned_principal_forbidden_witness :
    getRole roleStore "nobody" = none ∧
    pipeline true roleStore (Credential.valid "nobody") Operation.listItems =
      (roleStore, Except.error ApiErr.forbidden) :=
  ⟨rfl, (unassigned_principal_forbidden true roleStore (Credential.valid "nobody")
      Operation.listItems).2 "nobody" rfl rfl⟩

theorem monthly_report_requires_admin_witness :
    getRole roleStore "pv" = some Role.viewer ∧
    pipeline true roleStore (Credential.valid "pv") Operation.monthlyReportOp =
      (roleStore, Except.error ApiErr.forbidden) :=
  ⟨rfl, (monthly_report_requires_admin true roleStore "pv").1 Role.viewer rfl
    (by decide)⟩

theorem full_update_admin_or_manager_witness :
    getRole roleStore "pm" = some Role.manager ∧
    findItem roleStore "w" = some (mkItem "w" 7) ∧
    validatePayload { name := "w2", quantity := 9, price := 3, category := none } =
      none ∧
    (pipeline true roleStore (Credential.valid "pm")
        (Operation.updateItem "w"
          { name := "w2", quantity := 9, price := 3, category := none })).2 =
      Except.ok (Response.item
        { mkItem "w" 7 with
            name := "w2", quantity := 9, price := 3,
            category := none, updated_at := roleStore.now }) :=
  ⟨rfl, rfl, rfl,
    (full_update_admin_or_manager roleStore "pm" "w"
        { name := "w2", quantity := 9, price := 3, category := none }).2.2
      Role.manager rfl (Or.inr rfl) (mkItem "w" 7) rfl rfl⟩

theorem trend_series_spec_witness :
    WF trendStore ∧
    findItem trendStore "i1" = some { mkItem "i1" 40 with updated_at := 3 } ∧
    ∃ pts, trendH trendStore "i1" = Except.ok pts ∧
      pts.getLast? =
        some (trendStore.now, ({ mkItem "i1" 40 with updated_at := 3 } : Item).quantity) ∧
      pts.Pairwise (fun a b => a.1 < b.1) ∧
      pts.length = (histPoints trendStore "i1").length + 1 ∧
      ((histPoints trendStore "i1").length = 3 → pts.length = 3 ∨ pts.length = 4) :=
  ⟨by decide, rfl,
    (trend_series_spec trendStore "i1" (by decide)).2 _ rfl⟩

theorem bearer_header_always_present_witness :
    apiOptsNoToken.authToken = none ∧
    (apiEnvServer.isServer = true ∨
      ∀ t, apiEnvServer.sessionFetch ≠ ApiClient.SessionFetch.session t) ∧
    ∃ e, ApiClient.buildRequest apiOptsNoToken apiEnvServer "/api/items" =
        Except.error e :=
  ⟨rfl, Or.inl rfl,
    (bearer_header_always_present apiOptsNoToken apiEnvServer "/api/items").2 rfl
      (Or.inl rfl)⟩

theorem response_status_handling_witness :
    ¬ (200 ≤ 404 ∧ 404 ≤ 299) ∧
    ApiClient.handleResponse (fun _ => none) 404 "oops" =
      Except.error (ApiClient.ClientError.apiFailed 404
        (ApiClient.errMessageOf (fun _ => none) 404 "oops")) :=
  ⟨by decide,
    ((response_status_handling (fun _ => none) 404 "oops").1 (by decide)).2.2
      (by decide) (by decide)⟩

end Inventory
